import Mathlib

/-!
Verification of the Streamlit application `app.py` (Agentic Data Studio Pro).

The file shallowly embeds the pure logic of the application:
string helpers mirroring the Python string methods used by the code,
the tab4 document-generation loop, the tab1 dashboard metrics, the tab5
agents-runner loop, `render_status_badge`, and the theme lookup of
`apply_theme`.  External services (Google Sheets/Docs, LLM providers) are
modelled as oracle functions supplied as parameters; their side effects are
recorded as explicit `Effect` values.
-/

namespace App

/-! ### String helpers mirroring the Python string methods used in app.py -/

/-- Python `str.startswith` at the character-list level: `p` is a prefix of `s`. -/
def listPrefixOf : List Char → List Char → Bool
  | [], _ => true
  | _ :: _, [] => false
  | p :: ps, c :: cs => p == c && listPrefixOf ps cs

/-- Python `p in s` (substring test) at the character-list level. -/
def containsSub : List Char → List Char → Bool
  | [], pat => pat.isEmpty
  | c :: rest, pat => listPrefixOf pat (c :: rest) || containsSub rest pat

/-- Python `s.startswith(p)`. -/
def pyStartsWith (s p : String) : Bool := listPrefixOf p.data s.data

/-- Python `s.strip()`: drop leading and trailing whitespace characters. -/
def pyStrip (s : String) : String :=
  ⟨((s.data.dropWhile Char.isWhitespace).reverse.dropWhile Char.isWhitespace).reverse⟩

/-- Python `s.lower()` (ASCII case mapping, which covers every string the
code compares after lowercasing). -/
def pyLower (s : String) : String := ⟨s.data.map Char.toLower⟩

/-- Python `s.replace(old, new)` for a non-empty `old`: left-to-right scan
replacing each non-overlapping occurrence.  Each step consumes at least one
character, so `fuel := s.length` makes the recursion structural without
changing the result. -/
def replaceAllFuel (pat rep : List Char) : Nat → List Char → List Char
  | _, [] => []
  | 0, s => s
  | fuel + 1, c :: rest =>
    if listPrefixOf pat (c :: rest) then
      rep ++ replaceAllFuel pat rep fuel ((c :: rest).drop pat.length)
    else
      c :: replaceAllFuel pat rep fuel rest

/-- Python `s.replace(old, new)` on character lists.  For the empty pattern
Python interleaves the replacement around every character. -/
def replaceAll (s pat rep : List Char) : List Char :=
  match pat with
  | [] => rep ++ s.flatMap (fun c => c :: rep)
  | _ :: _ => replaceAllFuel pat rep s.length s

/-- Python `s.replace(old, new)` on strings. -/
def pyReplace (s old new : String) : String := ⟨replaceAll s.data old.data new.data⟩

/-! ### Sheet data model -/

/-- A sheet row: an association of column names to cell values (as strings,
the way every code path of app.py consumes them). -/
abbrev Row := List (String × String)

/-- Python `row.get(col, "")`. -/
def rowGet (r : Row) (col : String) : String := (List.lookup col r).getD ""

/-- The dataframe returned by `read_sheet_df`: its columns and its rows. -/
structure DataFrame where
  columns : List String
  rows : List Row

/-- Control-column constant `TRIGGER_COL` of app.py. -/
def TRIGGER_COL : String := "Generate"

/-- Control-column constant `STATUS_COL` of app.py. -/
def STATUS_COL : String := "Status"

/-- Control-column constant `URL_COL` of app.py. -/
def URL_COL : String := "Doc URL"

/-- Control-column constant `TS_COL` of app.py. -/
def TS_COL : String := "Generated At"

/-- Control-column constant `PDF_URL_COL` of app.py. -/
def PDF_URL_COL : String := "PDF URL"

/-! ### Tab 4: document-generation loop -/

/-- The three entries of the tab4 `Selection Mode` selectbox. -/
inductive GenMode
  | generateTrue
  | withoutDocUrl
  | manualSelection
deriving DecidableEq

/-- The user-chosen generation options of tab4. -/
structure GenConfig where
  mode : GenMode
  manualSel : List Nat
  createPdf : Bool
  customFilename : String
  templateId : String
  destFolderId : Option String

/-- Oracles for the external Google API calls made by the tab4 loop; an
`Except.error e` result models the call raising an exception with message
`e`.  `nowStr` models `datetime.now().strftime(...)`. -/
structure GenEnv where
  copy_gdoc : String → String → Option String → Except String String
  replace_placeholders : String → List (String × String) → Except String Unit
  nowStr : String

/-- The observable side effects of one iteration of the tab4 loop. -/
inductive Effect
  | copyDoc (templateId filename : String) (destFolderId : Option String)
  | replacePh (docId : String) (mapping : List (String × String))
  | writeBack (rowIndex1 : Nat) (updates : List (String × String))
deriving DecidableEq

/-- Whether an effect is a `write_back` call. -/
def Effect.isWriteBack : Effect → Bool
  | .writeBack _ _ => true
  | _ => false

/-- Lines 771-781 of app.py: the per-row selection criteria (a row passes
when no `continue` fires). -/
def rowSelected (mode : GenMode) (manualSel : List Nat) (row : Row) (rowIndex1 : Nat) : Bool :=
  match mode with
  | .generateTrue =>
      ["true", "yes", "y", "1", "checked"].contains (pyLower (pyStrip (rowGet row TRIGGER_COL)))
  | .withoutDocUrl => pyStrip (rowGet row URL_COL) == ""
  | .manualSelection => manualSel.contains rowIndex1

/-- Lines 788-791 of app.py: substitute `\x7b\x7bcol\x7d\x7d` placeholders of every
dataframe column into the filename pattern, in column order. -/
def placeholderFor (col : String) : String := "\x7b\x7b" ++ col ++ "\x7d\x7d"

/-- The filename built by the tab4 loop from the user's pattern. -/
def buildFilename (pattern : String) (columns : List String) (row : Row) : String :=
  columns.foldl (fun fn col => pyReplace fn (placeholderFor col) (rowGet row col)) pattern

/-- Lines 787-816 of app.py: the `try` block of one loop iteration.  Returns
the effects performed before any exception together with `Except.ok ()` on
success or `Except.error e` when one of the external calls raises `e`. -/
def tryBranch (env : GenEnv) (cfg : GenConfig) (columns : List String) (idx : Nat) (row : Row) :
    List Effect × Except String Unit :=
  let filename := buildFilename cfg.customFilename columns row
  match env.copy_gdoc cfg.templateId filename cfg.destFolderId with
  | Except.error e => ([], Except.error e)
  | Except.ok new_doc_id =>
    let mapping := columns.map (fun col => (col, rowGet row col))
    match env.replace_placeholders new_doc_id mapping with
    | Except.error e => ([Effect.copyDoc cfg.templateId filename cfg.destFolderId], Except.error e)
    | Except.ok _ =>
      let doc_url := "https://docs.google.com/document/d/" ++ new_doc_id ++ "/edit"
      let updates :=
        [(STATUS_COL, "Done"), (URL_COL, doc_url), (TS_COL, env.nowStr)] ++
          (if cfg.createPdf then
            [(PDF_URL_COL,
              "https://docs.google.com/document/d/" ++ new_doc_id ++ "/export?format=pdf")]
          else [])
      ([Effect.copyDoc cfg.templateId filename cfg.destFolderId,
        Effect.replacePh new_doc_id mapping,
        Effect.writeBack (idx + 2) updates], Except.ok ())

/-- Lines 768-826 of app.py, one iteration: selection checks, the idempotency
skip, then the `try`/`except`.  Returns the effects of the iteration together
with its contribution to `success_count` and `error_count`. -/
def processRow (env : GenEnv) (cfg : GenConfig) (columns : List String) (idx : Nat) (row : Row) :
    List Effect × Nat × Nat :=
  if rowSelected cfg.mode cfg.manualSel row (idx + 2) then
    if pyStrip (rowGet row URL_COL) = "" then
      match tryBranch env cfg columns idx row with
      | (effects, Except.ok _) => (effects, 1, 0)
      | (effects, Except.error e) =>
        (effects ++ [Effect.writeBack (idx + 2) [(STATUS_COL, "Error: " ++ e.take 100)]], 0, 1)
    else ([], 0, 0)
  else ([], 0, 0)

/-- The `for idx, row in df.iterrows()` loop of tab4, iterating from dataframe
index `idx`. -/
def genLoop (env : GenEnv) (cfg : GenConfig) (columns : List String) :
    Nat → List Row → List Effect × Nat × Nat
  | _, [] => ([], 0, 0)
  | idx, row :: rest =>
    let r1 := processRow env cfg columns idx row
    let r2 := genLoop env cfg columns (idx + 1) rest
    (r1.1 ++ r2.1, r1.2.1 + r2.2.1, r1.2.2 + r2.2.2)

/-- The whole tab4 generation run over a dataframe. -/
def runGeneration (env : GenEnv) (cfg : GenConfig) (df : DataFrame) :
    List Effect × Nat × Nat :=
  genLoop env cfg df.columns 0 df.rows

/-! ### Tab 1: dashboard metrics (lines 478-482 of app.py) -/

/-- Dashboard `total_rows = len(df)`. -/
def total_rows (df : DataFrame) : Nat := df.rows.length

/-- Dashboard `done_count = df[STATUS_COL].astype(str).str.startswith("Done").sum()`:
the sum of the boolean indicators of a `Done` prefix. -/
def done_count (df : DataFrame) : Nat :=
  (df.rows.map (fun r => if pyStartsWith (rowGet r STATUS_COL) "Done" then 1 else 0)).sum

/-- Dashboard `error_count = df[STATUS_COL].astype(str).str.startswith("Error").sum()`. -/
def error_count (df : DataFrame) : Nat :=
  (df.rows.map (fun r => if pyStartsWith (rowGet r STATUS_COL) "Error" then 1 else 0)).sum

/-- Dashboard `pending_count = total_rows - done_count - error_count` (exact integer
arithmetic, as in Python). -/
def pending_count (df : DataFrame) : Int :=
  (total_rows df : Int) - done_count df - error_count df

/-- Dashboard `success_rate = (done_count / total_rows * 100) if total_rows > 0 else 0`,
with exact rational division standing for Python float division. -/
def success_rate (df : DataFrame) : ℚ :=
  if 0 < total_rows df then (done_count df : ℚ) / (total_rows df : ℚ) * 100 else 0

/-! ### render_status_badge (lines 316-331 of app.py)

The input is the Status cell: `none` models a pandas NaN, `some s` a string
value. -/

/-- The `<span>` markup returned by `render_status_badge`. -/
def statusBadgeHtml (badgeClass badgeText : String) : String :=
  "<span class=\"status-badge " ++ badgeClass ++ "\">" ++ badgeText ++ "</span>"

/-- Lines 316-331 of app.py. -/
def render_status_badge : Option String → String
  | none => statusBadgeHtml "status-pending" "Pending"
  | some status =>
    if status = "" then statusBadgeHtml "status-pending" "Pending"
    else if pyStartsWith (pyLower status) "done" then statusBadgeHtml "status-success" "✓ Done"
    else if pyStartsWith (pyLower status) "error" then statusBadgeHtml "status-error" "✗ Error"
    else statusBadgeHtml "status-pending" status

/-! ### Themes (lines 33-198 of app.py) -/

/-- One entry of the `THEMES` dictionary. -/
structure Theme where
  primary : String
  secondary : String
  background : String
  surface : String
  text : String
  accent : String
deriving DecidableEq

/-- The `THEMES` dictionary of app.py, in source order. -/
def THEMES : List (String × Theme) :=
  [("Cyber Neon", ⟨"#00ffff", "#ff00ff", "#0a0e27", "#1a1f3a", "#e0e0e0", "#00ff88"⟩),
   ("Sunset Glow", ⟨"#ff6b6b", "#ffd93d", "#2d1b2e", "#3d2b3e", "#f5f5f5", "#ff9a56"⟩),
   ("Ocean Depth", ⟨"#0077be", "#00b4d8", "#011627", "#1a2332", "#f1f1f1", "#48cae4"⟩),
   ("Forest Twilight", ⟨"#2d6a4f", "#52b788", "#1b263b", "#2d3e50", "#e8f5e9", "#95d5b2"⟩),
   ("Royal Purple", ⟨"#7b2cbf", "#c77dff", "#10002b", "#240046", "#f0e6ff", "#e0aaff"⟩),
   ("Desert Sunset", ⟨"#d4a373", "#ee9b00", "#1a1410", "#2d2418", "#fdf6e3", "#ca6702"⟩),
   ("Arctic Ice", ⟨"#4cc9f0", "#7209b7", "#03045e", "#023e8a", "#caf0f8", "#90e0ef"⟩),
   ("Volcanic Ash", ⟨"#e63946", "#f77f00", "#1d1d1d", "#2d2d2d", "#f1faee", "#ffb703"⟩),
   ("Mint Fresh", ⟨"#06ffa5", "#00d9ff", "#0f1419", "#1a2027", "#e8fff3", "#4fffb0"⟩),
   ("Lavender Dreams", ⟨"#b8a7d4", "#d4a5d8", "#1a1423", "#2d243a", "#f8f4ff", "#c4b5f3"⟩),
   ("Monochrome Pro", ⟨"#ffffff", "#b0b0b0", "#000000", "#1a1a1a", "#ffffff", "#808080"⟩),
   ("Coral Reef", ⟨"#ff6f61", "#ffb399", "#1a0f14", "#2d1f24", "#fff5f5", "#ff9a8a"⟩),
   ("Emerald Night", ⟨"#50c878", "#00a86b", "#0a1612", "#142822", "#e8fff2", "#7cf5a0"⟩),
   ("Golden Hour", ⟨"#ffd700", "#ffed4e", "#1a1410", "#2d2418", "#fffef0", "#ffe55c"⟩),
   ("Deep Space", ⟨"#8b5cf6", "#ec4899", "#0c0a1d", "#1a1631", "#f3e8ff", "#a78bfa"⟩),
   ("Crimson Edge", ⟨"#dc143c", "#ff6b9d", "#1a0a0f", "#2d141f", "#fff0f5", "#ff4d6d"⟩),
   ("Teal Fusion", ⟨"#14b8a6", "#06b6d4", "#0f1419", "#1a2530", "#e0f2fe", "#5eead4"⟩),
   ("Amber Glow", ⟨"#f59e0b", "#fbbf24", "#1c1410", "#2d2318", "#fffbeb", "#fcd34d"⟩),
   ("Indigo Wave", ⟨"#6366f1", "#818cf8", "#0f0f1e", "#1e1e3f", "#e0e7ff", "#a5b4fc"⟩),
   ("Rose Garden", ⟨"#f43f5e", "#fb7185", "#1f0a13", "#2d1420", "#fff1f2", "#fda4af"⟩)]

/-- The `THEMES["Cyber Neon"]` fallback value. -/
def cyberNeonTheme : Theme := ⟨"#00ffff", "#ff00ff", "#0a0e27", "#1a1f3a", "#e0e0e0", "#00ff88"⟩

/-- Line 198 of app.py: `theme = THEMES.get(theme_name, THEMES["Cyber Neon"])`,
the theme dictionary `apply_theme` styles the page with. -/
def apply_theme (theme_name : String) : Theme :=
  (List.lookup theme_name THEMES).getD
    ((List.lookup "Cyber Neon" THEMES).getD ⟨"", "", "", "", "", ""⟩)

/-! ### Tab 5: agents runner (lines 1129-1193 of app.py) -/

/-- One agent dictionary from agents.yaml; `name` and `id` are `Option`
because the code reads them with `dict.get` defaults. -/
structure Agent where
  name : Option String
  id : Option String
  provider : String
  model : String
  prompt : String
deriving DecidableEq

/-- A placeholder agent for total indexing; under the UI bound
`num_agents <= len(agents)` it is never selected. -/
def defaultAgent : Agent := ⟨none, none, "", "", ""⟩

/-- Lines 1129-1133 of app.py: the context dictionary built once before the
loop.  `row_json` holds `json.dumps(row_data, ...)`. -/
structure Context where
  row_json : String
  required_fields_csv : String
deriving DecidableEq

/-- One entry of the `results` list. -/
structure AgentResult where
  agent : String
  status : String
  output : String
deriving DecidableEq

/-- Line 1147 of app.py:
`agent.get("name", agent.get("id", f"Agent {i+1}"))`. -/
def agentDisplayName (a : Agent) (i : Nat) : String :=
  a.name.getD (a.id.getD ("Agent " ++ toString (i + 1)))

/-- Lines 1150-1168 of app.py: one iteration of the agents loop.  The oracle
`call` models `run_agent`; `Except.error e` models it raising `e`. -/
def agentStep (call : Agent → Context → Except String String) (ctx : Context)
    (a : Agent) (i : Nat) : AgentResult :=
  match call a ctx with
  | Except.ok output => ⟨agentDisplayName a i, "success", output⟩
  | Except.error e => ⟨agentDisplayName a i, "error", "Error: " ++ e⟩

/-- Lines 1142-1171 of app.py: `for i in range(int(num_agents)): agent = agents[i]; ...`,
collecting one result per agent. -/
def runAgentsLoop (call : Agent → Context → Except String String) (ctx : Context)
    (agents : List Agent) (n : Nat) : List AgentResult :=
  (List.range n).map (fun i => agentStep call ctx (agents.getD i defaultAgent) i)

/-- What the display loop renders for one result. -/
inductive Shown
  | success (agent output : String)
  | failure (agent output : String)
deriving DecidableEq

/-- Lines 1177-1193 of app.py: after the loop, every collected result is
rendered; a success shows its output via `st.markdown`, an error via
`st.error`, both verbatim. -/
def displayResults (rs : List AgentResult) : List Shown :=
  rs.map (fun r => if r.status == "success" then Shown.success r.agent r.output
                   else Shown.failure r.agent r.output)

/-! ### Concrete sample data for witnesses -/

/-- Sample dataframe columns. -/
def sampleColumns : List String := ["Company", "Generate"]

/-- Sample sheet row triggering generation. -/
def sampleRow : Row := [("Company", "Acme"), ("Generate", "true")]

/-- Sample row that already carries a Doc URL. -/
def sampleDoneRow : Row :=
  [("Company", "Acme"), ("Generate", "true"),
   ("Doc URL", "https://docs.google.com/document/d/EXISTING/edit")]

/-- Sample generation options. -/
def sampleCfg : GenConfig :=
  ⟨GenMode.generateTrue, [], true, "\x7b\x7bCompany\x7d\x7d Report", "tpl1", none⟩

/-- Environment whose `copy_gdoc` call raises. -/
def failingEnv : GenEnv :=
  ⟨fun _ _ _ => Except.error "quota exceeded", fun _ _ => Except.ok (), "2025-01-01 00:00:00"⟩

/-- Environment whose external calls all succeed. -/
def okEnv : GenEnv :=
  ⟨fun _ _ _ => Except.ok "NEWDOC", fun _ _ => Except.ok (), "2025-01-01 00:00:00"⟩

/-- Sample dashboard dataframe. -/
def sampleDf : DataFrame :=
  ⟨["Status"],
   [[("Status", "Done")], [("Status", "Error: boom")], [("Status", "")],
    [("Status", "Done 2025-01-01")]]⟩

/-- Sample dataframe all of whose rows already have a Doc URL. -/
def sampleDoneDf : DataFrame := ⟨["Company", "Generate", "Doc URL"], [sampleDoneRow]⟩

/-- Sample agent list. -/
def sampleAgents : List Agent :=
  [⟨some "Validator", some "data_validator", "openai", "gpt-4o-mini", "p1"⟩,
   ⟨none, some "company_enricher", "gemini", "gemini-2.0-flash-exp", "p2"⟩,
   ⟨none, none, "grok", "grok-beta", "p3"⟩]

/-- Sample `run_agent` oracle: the gemini agent raises, the others answer. -/
def sampleAgentCall : Agent → Context → Except String String :=
  fun a ctx =>
    if a.provider == "gemini" then Except.error "rate limited"
    else Except.ok ("analysis of " ++ ctx.row_json ++ " by " ++ a.provider)

/-- Sample agent context. -/
def sampleCtx : Context := ⟨"rowjson", "Company, Industry, Revenue"⟩

/-! ### Helper lemmas -/

theorem containsSub_nil_pat (s : List Char) : containsSub s [] = true := by
  cases s <;> simp [containsSub, listPrefixOf]

theorem replaceAllFuel_of_not_contains (pat rep : List Char) :
    ∀ fuel s, containsSub s pat = false → replaceAllFuel pat rep fuel s = s := by
  intro fuel
  induction fuel with
  | zero => intro s _; cases s <;> rfl
  | succ fuel ih =>
    intro s hs
    cases s with
    | nil => rfl
    | cons c rest =>
      simp only [containsSub, Bool.or_eq_false_iff] at hs
      simp [replaceAllFuel, hs.1, ih rest hs.2]

theorem replaceAll_of_not_contains (s pat rep : List Char)
    (h : containsSub s pat = false) : replaceAll s pat rep = s := by
  cases pat with
  | nil => rw [containsSub_nil_pat] at h; cases h
  | cons p ps => exact replaceAllFuel_of_not_contains _ _ _ _ h

theorem pyReplace_of_not_contains (s old new : String)
    (h : containsSub s.data old.data = false) : pyReplace s old new = s := by
  unfold pyReplace
  rw [replaceAll_of_not_contains _ _ _ h]

theorem buildFilename_no_placeholder (pattern : String) (columns : List String) (row : Row)
    (h : ∀ c ∈ columns, containsSub pattern.data (placeholderFor c).data = false) :
    buildFilename pattern columns row = pattern := by
  induction columns with
  | nil => rfl
  | cons c cs ih =>
    unfold buildFilename at ih ⊢
    simp only [List.foldl_cons]
    rw [pyReplace_of_not_contains _ _ _ (h c (by simp))]
    exact ih (fun c' hc' => h c' (by simp [hc']))

theorem sum_ite_eq_length_filter {α : Type} (l : List α) (p : α → Bool) :
    (l.map (fun a => if p a then (1 : Nat) else 0)).sum = (l.filter p).length := by
  induction l with
  | nil => rfl
  | cons a t ih => cases hpa : p a <;> simp [List.filter_cons, hpa, ih, Nat.add_comm]

theorem done_error_exclusive (s : String) :
    ¬(pyStartsWith s "Done" = true ∧ pyStartsWith s "Error" = true) := by
  rintro ⟨hd, he⟩
  unfold pyStartsWith at hd he
  have hDone : ("Done" : String).data = ['D', 'o', 'n', 'e'] := rfl
  have hErr : ("Error" : String).data = ['E', 'r', 'r', 'o', 'r'] := rfl
  rw [hDone] at hd
  rw [hErr] at he
  cases hsd : s.data with
  | nil => rw [hsd] at hd; simp [listPrefixOf] at hd
  | cons c cs =>
    rw [hsd] at hd he
    simp only [listPrefixOf, Bool.and_eq_true, beq_iff_eq] at hd he
    rw [← hd.1] at he
    exact absurd he.1 (by decide)

theorem length_eq_counts {α : Type} (l : List α) (d e : α → Bool)
    (hx : ∀ a ∈ l, ¬(d a = true ∧ e a = true)) :
    l.length = (l.filter d).length + (l.filter e).length
      + (l.filter (fun a => !d a && !e a)).length := by
  induction l with
  | nil => rfl
  | cons a t ih =>
    have hxt : ∀ b ∈ t, ¬(d b = true ∧ e b = true) :=
      fun b hb => hx b (List.mem_cons_of_mem _ hb)
    have ha := hx a (List.mem_cons_self _ _)
    have iht := ih hxt
    cases hda : d a with
    | true =>
      cases hea : e a with
      | true => exact absurd ⟨hda, hea⟩ ha
      | false => simp [List.filter_cons, hda, hea]; omega
    | false =>
      cases hea : e a with
      | true => simp [List.filter_cons, hda, hea]; omega
      | false => simp [List.filter_cons, hda, hea]; omega

theorem runAgentsLoop_getD (call : Agent → Context → Except String String) (ctx : Context)
    (agents : List Agent) (n i : Nat) (hi : i < n) :
    (runAgentsLoop call ctx agents n).getD i ⟨"", "", ""⟩
      = agentStep call ctx (agents.getD i defaultAgent) i := by
  have hlen : i < ((List.range n).map
      (fun i => agentStep call ctx (agents.getD i defaultAgent) i)).length := by
    simpa using hi
  rw [runAgentsLoop, List.getD_eq_getElem _ _ hlen, List.getElem_map, List.getElem_range]

theorem displayResults_getD (rs : List AgentResult) (i : Nat) (hi : i < rs.length) :
    (displayResults rs).getD i (Shown.failure "" "")
      = (fun r => if r.status == "success" then Shown.success r.agent r.output
                  else Shown.failure r.agent r.output) (rs.getD i ⟨"", "", ""⟩) := by
  simp only [displayResults]
  have hlen : i < (List.map
      (fun r => if r.status == "success" then Shown.success r.agent r.output
                else Shown.failure r.agent r.output) rs).length := by
    simpa using hi
  rw [List.getD_eq_getElem _ _ hlen, List.getElem_map, List.getD_eq_getElem _ _ hi]

/-! ### Claim theorems -/

/-- Claim C1: when processing a selected row raises an exception, the only
recovery is a single `write_back` setting the Status cell to `Error: ` plus
the message truncated to 100 characters; no other cell of that row is
written in the error branch, the row counts as one error and no success,
and the loop continues with the remaining rows. -/
theorem error_branch_single_write (env : GenEnv) (cfg : GenConfig) (columns : List String)
    (idx : Nat) (row : Row) (rest : List Row) (e : String)
    (hsel : rowSelected cfg.mode cfg.manualSel row (idx + 2) = true)
    (hurl : pyStrip (rowGet row URL_COL) = "")
    (herr : (tryBranch env cfg columns idx row).2 = Except.error e) :
    (processRow env cfg columns idx row).1.filter Effect.isWriteBack
      = [Effect.writeBack (idx + 2) [(STATUS_COL, "Error: " ++ e.take 100)]]
    ∧ (processRow env cfg columns idx row).2 = (0, 1)
    ∧ genLoop env cfg columns idx (row :: rest)
      = ((processRow env cfg columns idx row).1 ++ (genLoop env cfg columns (idx + 1) rest).1,
         (genLoop env cfg columns (idx + 1) rest).2.1,
         1 + (genLoop env cfg columns (idx + 1) rest).2.2) := by
  rcases htb : tryBranch env cfg columns idx row with ⟨es, r⟩
  rw [htb] at herr
  simp only at herr
  subst herr
  have hpr : processRow env cfg columns idx row
      = (es ++ [Effect.writeBack (idx + 2) [(STATUS_COL, "Error: " ++ e.take 100)]], 0, 1) := by
    simp [processRow, hsel, hurl, htb]
  have hes : es.filter Effect.isWriteBack = [] := by
    cases hc : env.copy_gdoc cfg.templateId (buildFilename cfg.customFilename columns row)
        cfg.destFolderId with
    | error e1 =>
      simp only [tryBranch, hc] at htb
      obtain ⟨h1, _⟩ := Prod.mk.injEq .. ▸ htb
      simp [← h1]
    | ok d =>
      cases hr : env.replace_placeholders d (columns.map (fun col => (col, rowGet row col))) with
      | error e1 =>
        simp only [tryBranch, hc, hr] at htb
        obtain ⟨h1, _⟩ := Prod.mk.injEq .. ▸ htb
        simp [← h1, Effect.isWriteBack]
      | ok u =>
        simp only [tryBranch, hc, hr] at htb
        obtain ⟨_, h2⟩ := Prod.mk.injEq .. ▸ htb
        cases h2
  refine ⟨?_, ?_, ?_⟩
  · rw [hpr]
    simp [List.filter_append, hes, Effect.isWriteBack]
  · rw [hpr]
  · simp [genLoop, hpr]

/-- Claim C1 witness: a concrete failing `copy_gdoc` call yields exactly the
single error `write_back` for sheet row 2. -/
theorem error_branch_single_write_witness :
    (processRow failingEnv sampleCfg sampleColumns 0 sampleRow).1.filter Effect.isWriteBack
      = [Effect.writeBack 2 [(STATUS_COL, "Error: " ++ ("quota exceeded").take 100)]] :=
  (error_branch_single_write failingEnv sampleCfg sampleColumns 0 sampleRow [] "quota exceeded"
    (by decide) (by decide) rfl).1

/-- Claim C2: for a selected, not-yet-generated row the pipeline copies the
template, then substitutes every dataframe column into the copy, then writes
status back with Status `Done`, the Doc URL cell a URL containing the new
document id, and the Generated At cell the timestamp; the PDF URL cell is
written exactly when PDF export is enabled. -/
theorem success_pipeline (env : GenEnv) (cfg : GenConfig) (columns : List String)
    (idx : Nat) (row : Row) (d : String)
    (hsel : rowSelected cfg.mode cfg.manualSel row (idx + 2) = true)
    (hurl : pyStrip (rowGet row URL_COL) = "")
    (hcopy : env.copy_gdoc cfg.templateId (buildFilename cfg.customFilename columns row)
        cfg.destFolderId = Except.ok d)
    (hrepl : env.replace_placeholders d (columns.map (fun col => (col, rowGet row col)))
        = Except.ok ()) :
    processRow env cfg columns idx row
      = ([Effect.copyDoc cfg.templateId (buildFilename cfg.customFilename columns row)
            cfg.destFolderId,
          Effect.replacePh d (columns.map (fun col => (col, rowGet row col))),
          Effect.writeBack (idx + 2)
            ([(STATUS_COL, "Done"),
              (URL_COL, "https://docs.google.com/document/d/" ++ d ++ "/edit"),
              (TS_COL, env.nowStr)] ++
              (if cfg.createPdf then
                [(PDF_URL_COL, "https://docs.google.com/document/d/" ++ d ++ "/export?format=pdf")]
              else []))], 1, 0) := by
  simp [processRow, hsel, hurl, tryBranch, hcopy, hrepl]

/-- Claim C2 witness: a concrete successful run produces copy, substitution
and one `Done` write-back with doc, timestamp and PDF cells. -/
theorem success_pipeline_witness :
    processRow okEnv sampleCfg sampleColumns 0 sampleRow
      = ([Effect.copyDoc "tpl1" "Acme Report" none,
          Effect.replacePh "NEWDOC" [("Company", "Acme"), ("Generate", "true")],
          Effect.writeBack 2
            [(STATUS_COL, "Done"),
             (URL_COL, "https://docs.google.com/document/d/NEWDOC/edit"),
             (TS_COL, "2025-01-01 00:00:00"),
             (PDF_URL_COL, "https://docs.google.com/document/d/NEWDOC/export?format=pdf")]],
         1, 0) :=
  success_pipeline okEnv sampleCfg sampleColumns 0 sampleRow "NEWDOC"
    (by decide) (by decide) rfl rfl

/-- Claim C3: any row whose Doc URL cell is non-empty after stripping is
skipped before any document is created or cell written, under every selection
mode and environment; a run over a sheet all of whose rows carry a Doc URL
performs no action at all. -/
theorem doc_url_idempotency :
    (∀ (env : GenEnv) (cfg : GenConfig) (columns : List String) (idx : Nat) (row : Row),
        pyStrip (rowGet row URL_COL) ≠ "" →
        processRow env cfg columns idx row = ([], 0, 0))
    ∧ (∀ (env : GenEnv) (cfg : GenConfig) (df : DataFrame),
        (∀ row ∈ df.rows, pyStrip (rowGet row URL_COL) ≠ "") →
        runGeneration env cfg df = ([], 0, 0)) := by
  have h1 : ∀ (env : GenEnv) (cfg : GenConfig) (columns : List String) (idx : Nat) (row : Row),
      pyStrip (rowGet row URL_COL) ≠ "" → processRow env cfg columns idx row = ([], 0, 0) := by
    intro env cfg columns idx row h
    unfold processRow
    cases hsel : rowSelected cfg.mode cfg.manualSel row (idx + 2) with
    | false => simp
    | true => simp [h]
  refine ⟨h1, ?_⟩
  intro env cfg df h
  unfold runGeneration
  have aux : ∀ rows : List Row, (∀ row ∈ rows, pyStrip (rowGet row URL_COL) ≠ "") →
      ∀ i, genLoop env cfg df.columns i rows = ([], 0, 0) := by
    intro rows
    induction rows with
    | nil => intro _ i; rfl
    | cons r t ih =>
      intro hr i
      have h0 := h1 env cfg df.columns i r (hr r (List.mem_cons_self _ _))
      simp [genLoop, h0, ih (fun b hb => hr b (List.mem_cons_of_mem _ hb)) (i + 1)]
  exact aux df.rows h 0

/-- Claim C3 witness: a concrete row with an existing Doc URL is untouched,
and a sheet of such rows yields an empty run. -/
theorem doc_url_idempotency_witness :
    processRow okEnv sampleCfg sampleColumns 0 sampleDoneRow = ([], 0, 0)
    ∧ runGeneration okEnv sampleCfg sampleDoneDf = ([], 0, 0) :=
  ⟨doc_url_idempotency.1 okEnv sampleCfg sampleColumns 0 sampleDoneRow (by decide),
   doc_url_idempotency.2 okEnv sampleCfg sampleDoneDf (by decide)⟩

/-- Claim C4: the dashboard metrics count Status prefixes: `done_count`
counts rows whose Status starts with `Done`, `error_count` those starting
with `Error`, `pending_count` is the remainder (exactly the rows starting
with neither), and `success_rate` is `done_count / total_rows * 100`, or `0`
for an empty sheet. -/
theorem dashboard_metrics (df : DataFrame) :
    done_count df
      = (df.rows.filter (fun r => pyStartsWith (rowGet r STATUS_COL) "Done")).length
    ∧ error_count df
      = (df.rows.filter (fun r => pyStartsWith (rowGet r STATUS_COL) "Error")).length
    ∧ pending_count df = (total_rows df : Int) - done_count df - error_count df
    ∧ pending_count df = ((df.rows.filter (fun r =>
        !(pyStartsWith (rowGet r STATUS_COL) "Done")
        && !(pyStartsWith (rowGet r STATUS_COL) "Error"))).length : Int)
    ∧ (0 < total_rows df →
        success_rate df = (done_count df : ℚ) / (total_rows df : ℚ) * 100)
    ∧ (total_rows df = 0 → success_rate df = 0) := by
  have hd := sum_ite_eq_length_filter df.rows
    (fun r => pyStartsWith (rowGet r STATUS_COL) "Done")
  have he := sum_ite_eq_length_filter df.rows
    (fun r => pyStartsWith (rowGet r STATUS_COL) "Error")
  have hcount := length_eq_counts df.rows
    (fun r => pyStartsWith (rowGet r STATUS_COL) "Done")
    (fun r => pyStartsWith (rowGet r STATUS_COL) "Error")
    (fun r _ => done_error_exclusive (rowGet r STATUS_COL))
  refine ⟨hd, he, rfl, ?_, ?_, ?_⟩
  · beta_reduce at hcount
    simp only [pending_count, total_rows, done_count, error_count]
    rw [hd, he]
    omega
  · intro h
    simp [success_rate, h]
  · intro h
    simp [success_rate, h]

/-- Claim C4 witness: the metrics at a concrete four-row sheet. -/
theorem dashboard_metrics_witness :
    0 < total_rows sampleDf
    ∧ success_rate sampleDf = (done_count sampleDf : ℚ) / (total_rows sampleDf : ℚ) * 100
    ∧ pending_count sampleDf = ((sampleDf.rows.filter (fun r =>
        !(pyStartsWith (rowGet r STATUS_COL) "Done")
        && !(pyStartsWith (rowGet r STATUS_COL) "Error"))).length : Int) :=
  ⟨by decide, (dashboard_metrics sampleDf).2.2.2.2.1 (by decide),
   (dashboard_metrics sampleDf).2.2.2.1⟩

/-- Claim C7: the agent runner invokes `run_agent` exactly `num_agents`
times, sequentially on `agents[0] .. agents[num_agents-1]`, collects one
result per agent (output on success, an error string on exception), and
displays every collected result after the loop; an exception in one agent
does not stop the remaining agents. -/
theorem agents_runner_loop (call : Agent → Context → Except String String) (ctx : Context)
    (agents : List Agent) (n : Nat) (hn : n ≤ agents.length) :
    (runAgentsLoop call ctx agents n).length = n
    ∧ (∀ i, i < n → (runAgentsLoop call ctx agents n).getD i ⟨"", "", ""⟩
        = agentStep call ctx (agents.getD i defaultAgent) i)
    ∧ (displayResults (runAgentsLoop call ctx agents n)).length = n := by
  refine ⟨by simp [runAgentsLoop], ?_, by simp [displayResults, runAgentsLoop]⟩
  intro i hi
  exact runAgentsLoop_getD call ctx agents n i hi

/-- Claim C7 witness: three agents run although the middle one raises; the
results list still has one entry per agent in order. -/
theorem agents_runner_loop_witness :
    3 ≤ sampleAgents.length
    ∧ (runAgentsLoop sampleAgentCall sampleCtx sampleAgents 3).length = 3
    ∧ (runAgentsLoop sampleAgentCall sampleCtx sampleAgents 3).getD 1 ⟨"", "", ""⟩
        = agentStep sampleAgentCall sampleCtx (sampleAgents.getD 1 defaultAgent) 1 :=
  ⟨by decide,
   (agents_runner_loop sampleAgentCall sampleCtx sampleAgents 3 (by decide)).1,
   (agents_runner_loop sampleAgentCall sampleCtx sampleAgents 3 (by decide)).2.1 1 (by decide)⟩

/-- Claim C8: every agent invocation of a run receives the same context,
built once from the serialized row and the required-fields string, and the
text returned by a successful call is displayed unchanged. -/
theorem agents_shared_context (call : Agent → Context → Except String String)
    (rowJson reqCsv : String) (agents : List Agent) (n : Nat) :
    (Context.mk rowJson reqCsv).row_json = rowJson
    ∧ (Context.mk rowJson reqCsv).required_fields_csv = reqCsv
    ∧ (∀ i, i < n →
        (runAgentsLoop call (Context.mk rowJson reqCsv) agents n).getD i ⟨"", "", ""⟩
          = agentStep call (Context.mk rowJson reqCsv) (agents.getD i defaultAgent) i)
    ∧ (∀ i out, i < n →
        call (agents.getD i defaultAgent) (Context.mk rowJson reqCsv) = Except.ok out →
        (displayResults (runAgentsLoop call (Context.mk rowJson reqCsv) agents n)).getD i
            (Shown.failure "" "")
          = Shown.success (agentDisplayName (agents.getD i defaultAgent) i) out) := by
  refine ⟨rfl, rfl,
    fun i hi => runAgentsLoop_getD call (Context.mk rowJson reqCsv) agents n i hi, ?_⟩
  intro i out hi hcall
  have hlen : i < (runAgentsLoop call (Context.mk rowJson reqCsv) agents n).length := by
    simp [runAgentsLoop, hi]
  rw [displayResults_getD _ _ hlen,
    runAgentsLoop_getD call (Context.mk rowJson reqCsv) agents n i hi]
  simp only [agentStep]
  rw [hcall]
  simp

/-- Claim C8 witness: the first sample agent's successful output, which
mentions the shared context verbatim, is displayed unchanged. -/
theorem agents_shared_context_witness :
    (displayResults (runAgentsLoop sampleAgentCall (Context.mk "rowjson" "Company")
        sampleAgents 3)).getD 0 (Shown.failure "" "")
      = Shown.success (agentDisplayName (sampleAgents.getD 0 defaultAgent) 0)
          "analysis of rowjson by openai" :=
  (agents_shared_context sampleAgentCall "rowjson" "Company" sampleAgents 3).2.2.2 0
    "analysis of rowjson by openai" (by decide) rfl

/-- Claim C5: the row-selection filter is a per-row predicate: in
`Rows with Generate=TRUE` mode a row passes iff its trigger value, stripped
and lowercased, is one of `true/yes/y/1/checked`; in
`All rows without Doc URL` mode iff its Doc URL cell strips to empty; in
`Manual selection` mode iff its 1-based sheet row index (dataframe index
plus 2) is among the selected indices; an unselected row contributes
nothing to the run. -/
theorem selection_mode_predicate :
    (∀ (manualSel : List Nat) (row : Row) (i1 : Nat),
        rowSelected GenMode.generateTrue manualSel row i1 = true ↔
          pyLower (pyStrip (rowGet row TRIGGER_COL)) ∈ ["true", "yes", "y", "1", "checked"])
    ∧ (∀ (manualSel : List Nat) (row : Row) (i1 : Nat),
        rowSelected GenMode.withoutDocUrl manualSel row i1 = true ↔
          pyStrip (rowGet row URL_COL) = "")
    ∧ (∀ (manualSel : List Nat) (row : Row) (i1 : Nat),
        rowSelected GenMode.manualSelection manualSel row i1 = true ↔ i1 ∈ manualSel)
    ∧ (∀ env cfg columns idx row,
        rowSelected cfg.mode cfg.manualSel row (idx + 2) = false →
        processRow env cfg columns idx row = ([], 0, 0)) := by
  refine ⟨?_, ?_, ?_, ?_⟩
  · intro manualSel row i1
    simp [rowSelected, List.contains, List.elem_iff]
  · intro manualSel row i1
    simp [rowSelected]
  · intro manualSel row i1
    simp [rowSelected, List.contains, List.elem_iff]
  · intro env cfg columns idx row h
    simp [processRow, h]

/-- Claim C5 witness: concrete instances of each mode and of the
no-selection-no-action consequence. -/
theorem selection_mode_predicate_witness :
    (pyLower (pyStrip (rowGet sampleRow TRIGGER_COL)) ∈ ["true", "yes", "y", "1", "checked"])
    ∧ processRow okEnv ⟨GenMode.manualSelection, [5], true, "f", "tpl1", none⟩
        sampleColumns 0 sampleRow = ([], 0, 0) :=
  ⟨(selection_mode_predicate.1 [] sampleRow 2).mp (by decide),
   selection_mode_predicate.2.2.2 okEnv ⟨GenMode.manualSelection, [5], true, "f", "tpl1", none⟩
     sampleColumns 0 sampleRow (by decide)⟩

/-- Claim C6: filename placeholder substitution is pure string replacement:
columns are substituted in order, each replacing every occurrence of its
`\x7b\x7bcol\x7d\x7d` placeholder by the row value; a pattern containing no
placeholder of any column is returned unchanged. -/
theorem filename_placeholder_substitution :
    (∀ (pattern : String) (c : String) (cols : List String) (row : Row),
        buildFilename pattern (c :: cols) row
          = buildFilename (pyReplace pattern (placeholderFor c) (rowGet row c)) cols row)
    ∧ (∀ (pattern : String) (columns : List String) (row : Row),
        (∀ c ∈ columns, containsSub pattern.data (placeholderFor c).data = false) →
        buildFilename pattern columns row = pattern)
    ∧ buildFilename "\x7b\x7bCompany\x7d\x7d - \x7b\x7bIndustry\x7d\x7d Report: \x7b\x7bCompany\x7d\x7d"
        ["Company", "Industry"] [("Company", "Acme"), ("Industry", "Tech")]
        = "Acme - Tech Report: Acme" := by
  refine ⟨fun pattern c cols row => rfl, ?_, by decide⟩
  intro pattern columns row h
  exact buildFilename_no_placeholder pattern columns row h

/-- Claim C6 witness: a pattern without placeholders of the sample columns is
returned unchanged. -/
theorem filename_placeholder_substitution_witness :
    buildFilename "Quarterly Report" sampleColumns sampleRow = "Quarterly Report" :=
  filename_placeholder_substitution.2.1 "Quarterly Report" sampleColumns sampleRow (by decide)

/-- Claim C9: `render_status_badge` is total and classifies every input:
NaN or empty gives the pending badge with text `Pending`; a lowercased
status starting with `done` gives the success badge `✓ Done`; one starting
with `error` gives the error badge `✗ Error`; anything else gives the
pending badge showing the original status text. -/
theorem render_status_badge_classification :
    render_status_badge none = statusBadgeHtml "status-pending" "Pending"
    ∧ render_status_badge (some "") = statusBadgeHtml "status-pending" "Pending"
    ∧ (∀ s : String, s ≠ "" → pyStartsWith (pyLower s) "done" = true →
        render_status_badge (some s) = statusBadgeHtml "status-success" "✓ Done")
    ∧ (∀ s : String, s ≠ "" → pyStartsWith (pyLower s) "done" = false →
        pyStartsWith (pyLower s) "error" = true →
        render_status_badge (some s) = statusBadgeHtml "status-error" "✗ Error")
    ∧ (∀ s : String, s ≠ "" → pyStartsWith (pyLower s) "done" = false →
        pyStartsWith (pyLower s) "error" = false →
        render_status_badge (some s) = statusBadgeHtml "status-pending" s) := by
  refine ⟨rfl, rfl, ?_, ?_, ?_⟩
  · intro s h1 h2
    simp [render_status_badge, h1, h2]
  · intro s h1 h2 h3
    simp [render_status_badge, h1, h2, h3]
  · intro s h1 h2 h3
    simp [render_status_badge, h1, h2, h3]

/-- Claim C9 witness: each classification branch at a concrete status. -/
theorem render_status_badge_classification_witness :
    render_status_badge (some "DONE at 5pm") = statusBadgeHtml "status-success" "✓ Done"
    ∧ render_status_badge (some "Error: quota") = statusBadgeHtml "status-error" "✗ Error"
    ∧ render_status_badge (some "in progress") = statusBadgeHtml "status-pending" "in progress" :=
  ⟨render_status_badge_classification.2.2.1 "DONE at 5pm" (by decide) (by decide),
   render_status_badge_classification.2.2.2.1 "Error: quota" (by decide) (by decide) (by decide),
   render_status_badge_classification.2.2.2.2 "in progress" (by decide) (by decide) (by decide)⟩

/-- Claim C10: `apply_theme` is total over theme names: the theme dictionary
used for styling is the `THEMES` entry when the name is a key, and the
`Cyber Neon` theme otherwise, so an unknown name always falls back to
`Cyber Neon`. -/
theorem apply_theme_fallback_total :
    (∀ (name : String) (t : Theme), List.lookup name THEMES = some t → apply_theme name = t)
    ∧ (∀ name : String, List.lookup name THEMES = none → apply_theme name = cyberNeonTheme)
    ∧ List.lookup "Cyber Neon" THEMES = some cyberNeonTheme := by
  refine ⟨?_, ?_, rfl⟩
  · intro name t h
    simp [apply_theme, h]
  · intro name h
    simp [apply_theme, h]
    rfl

/-- Claim C10 witness: a known name selects its entry, an unknown name falls
back to `Cyber Neon`. -/
theorem apply_theme_fallback_total_witness :
    apply_theme "Sunset Glow"
      = ⟨"#ff6b6b", "#ffd93d", "#2d1b2e", "#3d2b3e", "#f5f5f5", "#ff9a56"⟩
    ∧ apply_theme "Midnight Disco" = cyberNeonTheme :=
  ⟨apply_theme_fallback_total.1 "Sunset Glow" _ (by decide),
   apply_theme_fallback_total.2.1 "Midnight Disco" (by decide)⟩

end App
